import Mathlib

/-
Shallow embedding of the game server of this repository.

Sources embedded here:
  - src/server/index.ts   (GameManager with voting, record types, register handler)
  - src/unnamed/part_000  (GameManager without voting; PlayerManager)
  - src/unnamed/part_001  (AIService; a network call, modelled as an input string)

JavaScript Map objects are modelled as insertion-ordered association lists:
Map.set replaces the value in place when the key exists (keeping its position)
and appends otherwise; Map.values iterates in insertion order.

Methods that can throw are modelled as returning a pair of an Except outcome
and the post-state; every throw in the embedded methods happens before any
mutation, so the post-state on the error path equals the pre-state.

Nondeterministic inputs of the source (uuid round ids, Date timestamps, the
AI response text fetched over the network) are passed as explicit parameters.
-/

/-- Model of a JavaScript Map as an insertion-ordered association list: set
replaces the entry in place when the key is present (a Map holds at most one
entry per key), otherwise appends at the end. -/
def mapSet {α : Type} (m : List (String × α)) (k : String) (v : α) : List (String × α) :=
  match m with
  | [] => [(k, v)]
  | p :: t => if p.1 == k then (k, v) :: t else p :: mapSet t k v

/-- Model of JavaScript Map.get: the value stored under the key, if any. -/
def mapGet {α : Type} (m : List (String × α)) (k : String) : Option α :=
  match m with
  | [] => none
  | p :: t => if p.1 == k then some p.2 else mapGet t k

/-- Model of JavaScript Map.delete. -/
def mapDelete {α : Type} (m : List (String × α)) (k : String) : List (String × α) :=
  m.filter (fun p => ¬ (p.1 == k))

/-- Model of JavaScript Array.from(map.values()): values in insertion order. -/
def mapValues {α : Type} (m : List (String × α)) : List α :=
  m.map (fun p => p.2)

/-- Player record, src/server/index.ts lines 34-40. -/
structure Player where
  id : String
  name : String
  isAI : Bool
  isReady : Bool
  connected : Bool
deriving Repr, DecidableEq

/-- PlayerResponse record, src/server/index.ts lines 42-48. -/
structure PlayerResponse where
  playerId : String
  playerName : String
  response : String
  timestamp : String
  isAI : Bool
deriving Repr, DecidableEq

/-- PlayerVote record, src/server/index.ts lines 50-54. -/
structure PlayerVote where
  voterId : String
  votedPlayerId : String
  isAIGuess : Bool
deriving Repr, DecidableEq

/-- Vote record built by addVote from a voter id, a voted player id and a
guess flag (src/server/index.ts lines 142-146). -/
def mkVote (voterId votedPlayerId : String) (isAIGuess : Bool) : PlayerVote :=
  { voterId := voterId, votedPlayerId := votedPlayerId, isAIGuess := isAIGuess }

/-- GameRound record, src/server/index.ts lines 56-63 (the voting variant). -/
structure GameRound where
  roundId : String
  prompt : String
  responses : List (String × PlayerResponse)
  votes : List (String × PlayerVote)
  isComplete : Bool
  startTime : String
deriving Repr, DecidableEq

/-- Capacity constant. Modelled from the spec where needed: src/server/index.ts
line 10 sets MAX_REAL_PLAYERS to 16; src/unnamed/part_000 imports the same
constant from a constants module that is absent from src, and the spec fixes
the capacity at 16, agreeing with index.ts. -/
def MAX_REAL_PLAYERS : Nat := 16

/-- PlayerManager state, src/unnamed/part_000 lines 84-91: a Map of players
and a nullable aiPlayer field. -/
structure PlayerManager where
  players : List (String × Player)
  aiPlayer : Option Player
deriving Repr, DecidableEq

/-- PlayerManager constructor, src/unnamed/part_000 lines 88-91. -/
def PlayerManager.empty : PlayerManager :=
  { players := [], aiPlayer := none }

/-- PlayerManager.getRealPlayerCount, src/unnamed/part_000 lines 135-137. -/
def PlayerManager.getRealPlayerCount (pm : PlayerManager) : Nat :=
  ((mapValues pm.players).filter (fun p => !p.isAI)).length

/-- PlayerManager.canAddPlayer, src/unnamed/part_000 lines 93-96. -/
def PlayerManager.canAddPlayer (pm : PlayerManager) : Bool :=
  decide (pm.getRealPlayerCount < MAX_REAL_PLAYERS)

/-- PlayerManager.addPlayer, src/unnamed/part_000 lines 98-108: builds a human
player record and stores it with Map.set, returning the new record. -/
def PlayerManager.addPlayer (pm : PlayerManager) (id name : String) : Player × PlayerManager :=
  let newPlayer : Player :=
    { id := id, name := name, isAI := false, isReady := false, connected := true }
  (newPlayer, { pm with players := mapSet pm.players id newPlayer })

/-- PlayerManager.initializeAIPlayer, src/unnamed/part_000 lines 110-121:
constructs a fresh AI player record each call, stores it in the aiPlayer field
and in the players Map under its id, and returns it. -/
def PlayerManager.initializeAIPlayer (pm : PlayerManager) : Player × PlayerManager :=
  let aiPlayer : Player :=
    { id := "ai-player", name := "AI Player", isAI := true, isReady := true, connected := true }
  (aiPlayer, { players := mapSet pm.players aiPlayer.id aiPlayer, aiPlayer := some aiPlayer })

/-- PlayerManager.removePlayer, src/unnamed/part_000 lines 123-125. -/
def PlayerManager.removePlayer (pm : PlayerManager) (id : String) : PlayerManager :=
  { pm with players := mapDelete pm.players id }

/-- PlayerManager.getPlayer, src/unnamed/part_000 lines 127-129. -/
def PlayerManager.getPlayer (pm : PlayerManager) (id : String) : Option Player :=
  mapGet pm.players id

/-- PlayerManager.getAllPlayers, src/unnamed/part_000 lines 131-133. -/
def PlayerManager.getAllPlayers (pm : PlayerManager) : List Player :=
  mapValues pm.players

/-- PlayerManager.getAIPlayer, src/unnamed/part_000 lines 139-141. -/
def PlayerManager.getAIPlayer (pm : PlayerManager) : Option Player :=
  pm.aiPlayer

/-- PlayerManager.hasAIPlayer, src/unnamed/part_000 lines 143-145. -/
def PlayerManager.hasAIPlayer (pm : PlayerManager) : Bool :=
  pm.aiPlayer.isSome

/-- GameManager state, src/server/index.ts line 96: a nullable current round.
The playerManager collaborator is passed explicitly to the methods that read it. -/
structure GameManager where
  currentRound : Option GameRound
deriving Repr, DecidableEq

/-- GameManager.addResponse, src/server/index.ts lines 132-137: throws when no
round exists or the round is complete, otherwise Map.set keyed by playerId. -/
def GameManager.addResponse (gm : GameManager) (playerId : String)
    (response : PlayerResponse) : Except String Unit × GameManager :=
  match gm.currentRound with
  | none => (Except.error "No active round or round is complete", gm)
  | some r =>
    if r.isComplete then
      (Except.error "No active round or round is complete", gm)
    else
      (Except.ok (),
        { gm with currentRound := some { r with responses := mapSet r.responses playerId response } })

/-- GameManager.addVote, src/server/index.ts lines 139-147: throws only when no
round exists; Map.set keyed by voterId. -/
def GameManager.addVote (gm : GameManager) (voterId votedPlayerId : String)
    (isAIGuess : Bool) : Except String Unit × GameManager :=
  match gm.currentRound with
  | none => (Except.error "No active round", gm)
  | some r =>
    let vote : PlayerVote := mkVote voterId votedPlayerId isAIGuess
    (Except.ok (),
      { gm with currentRound := some { r with votes := mapSet r.votes voterId vote } })

/-- GameManager.getCurrentRound, src/server/index.ts lines 149-151. -/
def GameManager.getCurrentRound (gm : GameManager) : Option GameRound :=
  gm.currentRound

/-- GameManager.startNewRound, src/server/index.ts lines 103-130: installs a
fresh round with empty maps, then, when an AI player exists, fetches the AI
response (network call modelled by the aiResponse parameter) and records it via
addResponse keyed by the AI player's id, before returning the round id. The
uuid and the two timestamps are passed as parameters. -/
def GameManager.startNewRound (gm : GameManager) (pm : PlayerManager)
    (prompt roundId startTime aiResponse aiTimestamp : String) :
    Except String String × GameManager :=
  let _ := gm
  let r0 : GameRound :=
    { roundId := roundId, prompt := prompt, responses := [], votes := [],
      isComplete := false, startTime := startTime }
  let gm1 : GameManager := { currentRound := some r0 }
  if pm.hasAIPlayer then
    match pm.getAIPlayer with
    | some aiPlayer =>
      match gm1.addResponse aiPlayer.id
          { playerId := aiPlayer.id, playerName := aiPlayer.name, response := aiResponse,
            timestamp := aiTimestamp, isAI := true } with
      | (Except.ok _, gm2) => (Except.ok roundId, gm2)
      | (Except.error e, gm2) => (Except.error e, gm2)
    | none => (Except.ok roundId, gm1)
  else
    (Except.ok roundId, gm1)

/-- GameManager.checkRoundComplete, src/server/index.ts lines 153-158 (same in
src/unnamed/part_000 lines 53-61): responses.size >= getAllPlayers().length. -/
def GameManager.checkRoundComplete (gm : GameManager) (pm : PlayerManager) : Bool :=
  match gm.currentRound with
  | none => false
  | some r => decide (pm.getAllPlayers.length ≤ r.responses.length)

/-- GameManager.checkVotingComplete, src/server/index.ts lines 160-164. -/
def GameManager.checkVotingComplete (gm : GameManager) (pm : PlayerManager) : Bool :=
  match gm.currentRound with
  | none => false
  | some r =>
    decide ((pm.getAllPlayers.filter (fun p => !p.isAI)).length ≤ r.votes.length)

/-- Result record of getVoteResults, src/server/index.ts lines 166 and 178-182. -/
structure VoteResults where
  correct : Nat
  total : Nat
  aiPlayer : String
deriving Repr, DecidableEq

/-- GameManager.getVoteResults, src/server/index.ts lines 166-183: throws when
no round or no AI player; otherwise counts the votes whose guess flag agrees
with whether the voted-for player is the AI player. This method mutates
nothing. -/
def GameManager.getVoteResults (gm : GameManager) (pm : PlayerManager) :
    Except String VoteResults :=
  match gm.currentRound with
  | none => Except.error "No active round"
  | some r =>
    match pm.getAIPlayer with
    | none => Except.error "No AI player found"
    | some aiPlayer =>
      let votes := mapValues r.votes
      let correctVotes := votes.filter (fun vote =>
        (vote.votedPlayerId == aiPlayer.id && vote.isAIGuess) ||
        (vote.votedPlayerId != aiPlayer.id && !vote.isAIGuess))
      Except.ok { correct := correctVotes.length, total := votes.length, aiPlayer := aiPlayer.name }

/-- Summary record returned by completeRound, src/server/index.ts lines 185-190. -/
structure RoundResult where
  roundId : String
  prompt : String
  responses : List PlayerResponse
  voteResults : VoteResults
deriving Repr, DecidableEq

/-- GameManager.completeRound, src/server/index.ts lines 185-203: returns null
when no round; otherwise snapshots the responses, computes the vote results
(which can throw, before any mutation), then marks the round complete and
returns the summary. -/
def GameManager.completeRound (gm : GameManager) (pm : PlayerManager) :
    Except String (Option RoundResult) × GameManager :=
  match gm.currentRound with
  | none => (Except.ok none, gm)
  | some r =>
    let responses := mapValues r.responses
    match gm.getVoteResults pm with
    | Except.error e => (Except.error e, gm)
    | Except.ok voteResults =>
      let summary : RoundResult :=
        { roundId := r.roundId, prompt := r.prompt, responses := responses,
          voteResults := voteResults }
      (Except.ok (some summary),
        { gm with currentRound := some { r with isComplete := true } })

/-- GameManager.resetRound, src/server/index.ts lines 205-207. -/
def GameManager.resetRound (gm : GameManager) : GameManager :=
  let _ := gm
  { currentRound := none }

/-- Core of the register_player socket handler, src/server/index.ts lines
291-304: only when no player is registered under the socket id does it call
addPlayer, and when that made the roster size one it also creates the AI
player. -/
def registerPlayer (pm : PlayerManager) (socketId playerName : String) : PlayerManager :=
  match pm.getPlayer socketId with
  | some _ => pm
  | none =>
    let pm1 := (pm.addPlayer socketId playerName).2
    if pm1.getAllPlayers.length == 1 then
      (pm1.initializeAIPlayer).2
    else
      pm1

/-- Repeated submissions by one player, folding GameManager.addResponse and
keeping the post-state of each call. -/
def submitResponses (gm : GameManager) (playerId : String)
    (rs : List PlayerResponse) : GameManager :=
  rs.foldl (fun g resp => (g.addResponse playerId resp).2) gm

/-- Repeated votes by one voter, folding GameManager.addVote over a list of
voted-player-id and guess pairs. -/
def submitVotes (gm : GameManager) (voterId : String)
    (vs : List (String × Bool)) : GameManager :=
  vs.foldl (fun g v => (g.addVote voterId v.1 v.2).2) gm

/-- Canonical AI player record as built by initializeAIPlayer. -/
def aiRec : Player :=
  { id := "ai-player", name := "AI Player", isAI := true, isReady := true, connected := true }

/-- Registry holding only the AI player. -/
def pmAI : PlayerManager :=
  { players := [("ai-player", aiRec)], aiPlayer := some aiRec }

/-- Vote list of the spec's worked example for vote tallying. -/
def voteListEx : List (String × PlayerVote) :=
  [("v1", { voterId := "v1", votedPlayerId := "ai-player", isAIGuess := true }),
   ("v2", { voterId := "v2", votedPlayerId := "p2", isAIGuess := false }),
   ("v3", { voterId := "v3", votedPlayerId := "ai-player", isAIGuess := false })]

/-- Round carrying the example votes. -/
def roundEx : GameRound :=
  { roundId := "r1", prompt := "q", responses := [], votes := voteListEx,
    isComplete := false, startTime := "t0" }

/-- Response payload helper for concrete examples. -/
def respRec (tag : String) : PlayerResponse :=
  { playerId := tag, playerName := tag, response := "text", timestamp := "t", isAI := false }

/-- Round holding responses from two players. -/
def roundC3 : GameRound :=
  { roundId := "r3", prompt := "q", responses := [("p1", respRec "p1"), ("p2", respRec "p2")],
    votes := [], isComplete := false, startTime := "t0" }

/-- Game state holding roundC3. -/
def gmC3 : GameManager := { currentRound := some roundC3 }

/-- Human player record for concrete registries, as built by addPlayer. -/
def humanRec (id name : String) : Player :=
  { id := id, name := name, isAI := false, isReady := false, connected := true }

/-- Registry with a single human player p1 (p2 has disconnected). -/
def pmC3 : PlayerManager :=
  { players := [("p1", humanRec "p1" "Alice")], aiPlayer := none }

/-- Registry holding the single human player p1 named Alice. -/
def pmAlice : PlayerManager := (PlayerManager.empty.addPlayer "p1" "Alice").2

/-- Registry where the AI player exists but a later addPlayer call stored a
human record under the id ai-player. -/
def pmC8 : PlayerManager :=
  ((PlayerManager.empty.initializeAIPlayer).2.addPlayer "ai-player" "Bob").2

/- Helper lemmas about the Map model, and the claim theorems. -/

theorem mapGet_mapSet_self {α : Type} (m : List (String × α)) (k : String) (v : α) :
    mapGet (mapSet m k v) k = some v := by
  induction m with
  | nil => simp [mapSet, mapGet]
  | cons p t ih =>
    by_cases hpk : (p.1 == k) = true
    · simp [mapSet, mapGet, hpk]
    · simp only [mapSet, hpk, if_false, mapGet]
      simpa using ih

theorem mapGet_mapSet_ne {α : Type} (m : List (String × α)) (k k' : String) (v : α)
    (h : k' ≠ k) :
    mapGet (mapSet m k v) k' = mapGet m k' := by
  induction m with
  | nil =>
    have h1 : (k == k') = false := by
      simp only [beq_eq_false_iff_ne, ne_eq]
      exact fun hc => h hc.symm
    simp [mapSet, mapGet, h1]
  | cons p t ih =>
    by_cases hpk : (p.1 == k) = true
    · have hp : p.1 = k := by simpa using hpk
      have h1 : (k == k') = false := by
        simp only [beq_eq_false_iff_ne, ne_eq]
        exact fun hc => h hc.symm
      have h2 : (p.1 == k') = false := by rw [hp]; exact h1
      simp [mapSet, mapGet, hpk, h1, h2]
    · simp only [mapSet, hpk, if_false, mapGet]
      by_cases hk2 : (p.1 == k') = true
      · simp [hk2]
      · simp only [hk2, if_false]
        exact ih

theorem mapSet_mapSet {α : Type} (m : List (String × α)) (k : String) (v w : α) :
    mapSet (mapSet m k v) k w = mapSet m k w := by
  induction m with
  | nil => simp [mapSet]
  | cons p t ih =>
    by_cases hpk : (p.1 == k) = true
    · simp [mapSet, hpk]
    · simp only [mapSet, hpk, if_false]
      simp [ih]

theorem filter_key_eq_nil {α : Type} (t : List (String × α)) (k : String)
    (h : ∀ x ∈ t, x.1 ≠ k) :
    t.filter (fun p => p.1 == k) = [] := by
  rw [List.filter_eq_nil_iff]
  intro x hx
  simpa using h x hx

theorem mapSet_filter_key_length {α : Type} (m : List (String × α)) (k : String) (v : α)
    (hnd : (m.map Prod.fst).Nodup) :
    ((mapSet m k v).filter (fun p => p.1 == k)).length = 1 := by
  induction m with
  | nil => simp [mapSet]
  | cons p t ih =>
    simp only [List.map_cons, List.nodup_cons] at hnd
    by_cases hpk : (p.1 == k) = true
    · have hp : p.1 = k := by simpa using hpk
      have ht : t.filter (fun q => q.1 == k) = [] := by
        apply filter_key_eq_nil
        intro x hx hc
        apply hnd.1
        rw [hp, ← hc]
        exact List.mem_map_of_mem Prod.fst hx
      simp [mapSet, hpk, List.filter_cons, ht]
    · have hpf : (p.1 == k) = false := by simpa using hpk
      simp [mapSet, hpf, List.filter_cons, ih hnd.2]

/-- C1: for every round with votes and an existing AI player, getVoteResults
counts a vote as correct exactly when (votedPlayerId equals the AI player's id
and isAIGuess is true) or (votedPlayerId differs from the AI player's id and
isAIGuess is false), and reports the total number of votes. -/
theorem C1_getVoteResults_correctness (gm : GameManager) (pm : PlayerManager)
    (r : GameRound) (ai : Player)
    (hr : gm.currentRound = some r) (hai : pm.getAIPlayer = some ai) :
    gm.getVoteResults pm = Except.ok
      { correct := ((mapValues r.votes).filter (fun vote =>
          decide ((vote.votedPlayerId = ai.id ∧ vote.isAIGuess = true) ∨
            (vote.votedPlayerId ≠ ai.id ∧ vote.isAIGuess = false)))).length,
        total := (mapValues r.votes).length,
        aiPlayer := ai.name } := by
  have hfil : (mapValues r.votes).filter (fun vote =>
        (vote.votedPlayerId == ai.id && vote.isAIGuess) ||
        (vote.votedPlayerId != ai.id && !vote.isAIGuess)) =
      (mapValues r.votes).filter (fun vote =>
        decide ((vote.votedPlayerId = ai.id ∧ vote.isAIGuess = true) ∨
          (vote.votedPlayerId ≠ ai.id ∧ vote.isAIGuess = false))) := by
    apply List.filter_congr
    intro v _
    by_cases hid : v.votedPlayerId = ai.id <;> cases hg : v.isAIGuess <;> simp [hid, hg, bne]
  unfold GameManager.getVoteResults
  rw [hr, hai]
  simp only []
  rw [hfil]

/-- Witness for C1 at the spec's worked example: AI player id "ai-player" and
votes (v1, "ai-player", true), (v2, "p2", false), (v3, "ai-player", false)
give correct count 2 out of total 3. -/
theorem C1_witness :
    GameManager.getVoteResults { currentRound := some roundEx } pmAI =
      Except.ok { correct := 2, total := 3, aiPlayer := "AI Player" } := by
  rw [C1_getVoteResults_correctness { currentRound := some roundEx } pmAI roundEx aiRec rfl rfl]
  rfl

/-- C2: starting a round when an AI player exists records, before returning,
exactly one response in the fresh round, keyed by the AI player's id and
holding the AI response text with isAI true. -/
theorem C2_startNewRound_ai_response (gm : GameManager) (pm : PlayerManager) (ai : Player)
    (prompt roundId startTime aiResponse aiTimestamp : String)
    (hai : pm.getAIPlayer = some ai) :
    ∃ r : GameRound,
      (gm.startNewRound pm prompt roundId startTime aiResponse aiTimestamp).2.currentRound
        = some r ∧
      r.responses = [(ai.id,
        { playerId := ai.id, playerName := ai.name, response := aiResponse,
          timestamp := aiTimestamp, isAI := true })] ∧
      r.isComplete = false ∧
      (gm.startNewRound pm prompt roundId startTime aiResponse aiTimestamp).1
        = Except.ok roundId := by
  have hsome : pm.aiPlayer = some ai := hai
  have hhas : pm.hasAIPlayer = true := by simp [PlayerManager.hasAIPlayer, hsome]
  refine ⟨{ roundId := roundId, prompt := prompt,
            responses := [(ai.id,
              { playerId := ai.id, playerName := ai.name, response := aiResponse,
                timestamp := aiTimestamp, isAI := true })],
            votes := [], isComplete := false, startTime := startTime }, ?_, rfl, rfl, ?_⟩
  · simp [GameManager.startNewRound, hhas, PlayerManager.getAIPlayer, hsome,
      GameManager.addResponse, mapSet]
  · simp [GameManager.startNewRound, hhas, PlayerManager.getAIPlayer, hsome,
      GameManager.addResponse, mapSet]

/-- Witness for C2: starting a round against a registry holding the AI player
yields exactly the single AI-keyed response. -/
theorem C2_witness :
    ∃ r : GameRound,
      (GameManager.startNewRound { currentRound := none } pmAI "q" "rid" "t0" "resp" "t1").2.currentRound
        = some r ∧
      r.responses = [("ai-player",
        { playerId := "ai-player", playerName := "AI Player", response := "resp",
          timestamp := "t1", isAI := true })] ∧
      r.isComplete = false ∧
      (GameManager.startNewRound { currentRound := none } pmAI "q" "rid" "t0" "resp" "t1").1
        = Except.ok "rid" :=
  C2_startNewRound_ai_response { currentRound := none } pmAI aiRec "q" "rid" "t0" "resp" "t1" rfl

/-- C3 as stated fails: with one registered player left and two retained
responses, checkRoundComplete returns true although the response count does
not equal the player count (the code compares with greater-or-equal). -/
theorem C3_counterexample :
    ¬ (GameManager.checkRoundComplete gmC3 pmC3 = true ↔
        roundC3.responses.length = pmC3.getAllPlayers.length) := by
  decide

/-- C3 amended: with an active round, checkRoundComplete returns true exactly
when the number of responses is at least the number of currently registered
players (humans plus the AI player). -/
theorem C3_checkRoundComplete_ge (gm : GameManager) (pm : PlayerManager) (r : GameRound)
    (hr : gm.currentRound = some r) :
    (gm.checkRoundComplete pm = true ↔ pm.getAllPlayers.length ≤ r.responses.length) := by
  unfold GameManager.checkRoundComplete
  rw [hr]
  simp

/-- Witness for the amended C3 at a concrete active round. -/
theorem C3_witness :
    GameManager.checkRoundComplete gmC3 pmC3 = true ↔
      pmC3.getAllPlayers.length ≤ roundC3.responses.length :=
  C3_checkRoundComplete_ge gmC3 pmC3 roundC3 rfl

/-- C5: addResponse errors exactly when no round exists or the round is
complete; with an active incomplete round it succeeds, stores the response
under the submitter's key, and leaves every other key and every other round
field unchanged. -/
theorem C5_addResponse_spec (gm : GameManager) (p : String) (resp : PlayerResponse) :
    ((gm.addResponse p resp).1 = Except.error "No active round or round is complete" ↔
      (gm.currentRound = none ∨ ∃ r, gm.currentRound = some r ∧ r.isComplete = true)) ∧
    (∀ r, gm.currentRound = some r → r.isComplete = false →
      (gm.addResponse p resp).1 = Except.ok () ∧
      (gm.addResponse p resp).2.currentRound =
        some { r with responses := mapSet r.responses p resp } ∧
      mapGet (mapSet r.responses p resp) p = some resp ∧
      (∀ q, q ≠ p → mapGet (mapSet r.responses p resp) q = mapGet r.responses q)) := by
  constructor
  · constructor
    · intro h
      match hr : gm.currentRound with
      | none => exact Or.inl rfl
      | some r =>
        by_cases hc : r.isComplete = true
        · exact Or.inr ⟨r, rfl, hc⟩
        · exfalso
          unfold GameManager.addResponse at h
          rw [hr] at h
          simp [hc] at h
    · intro h
      rcases h with h | ⟨r, hr, hc⟩
      · unfold GameManager.addResponse
        rw [h]
      · unfold GameManager.addResponse
        rw [hr]
        simp [hc]
  · intro r hr hc
    unfold GameManager.addResponse
    rw [hr]
    refine ⟨by simp [hc], by simp [hc], mapGet_mapSet_self r.responses p resp,
      fun q hq => mapGet_mapSet_ne r.responses p q resp hq⟩

/-- Witness for C5: on the active incomplete round roundC3 a submission from
p1 succeeds and overwrites only that entry. -/
theorem C5_witness :
    (GameManager.addResponse gmC3 "p1" (respRec "again")).1 = Except.ok () ∧
    (GameManager.addResponse gmC3 "p1" (respRec "again")).2.currentRound =
      some { roundC3 with responses := mapSet roundC3.responses "p1" (respRec "again") } ∧
    mapGet (mapSet roundC3.responses "p1" (respRec "again")) "p1" = some (respRec "again") ∧
    (∀ q, q ≠ "p1" →
      mapGet (mapSet roundC3.responses "p1" (respRec "again")) q = mapGet roundC3.responses q) :=
  (C5_addResponse_spec gmC3 "p1" (respRec "again")).2 roundC3 rfl rfl

/-- Folding addResponse for one player over an active incomplete round
collapses to a single Map.set with the last submitted response. -/
theorem submitResponses_run (p : String) :
    ∀ (rs : List PlayerResponse) (gm : GameManager) (r : GameRound) (last : PlayerResponse),
      gm.currentRound = some r → r.isComplete = false → rs.getLast? = some last →
      (submitResponses gm p rs).currentRound =
        some { r with responses := mapSet r.responses p last } := by
  intro rs
  induction rs with
  | nil =>
    intro gm r last _ _ hlast
    simp at hlast
  | cons a t ih =>
    intro gm r last hr hc hlast
    cases t with
    | nil =>
      have ha : a = last := by simpa using hlast
      subst ha
      simp [submitResponses, GameManager.addResponse, hr, hc]
    | cons b t2 =>
      have hlast2 : (b :: t2).getLast? = some last := by
        simpa [List.getLast?_cons_cons] using hlast
      have step : (gm.addResponse p a).2.currentRound =
          some { r with responses := mapSet r.responses p a } := by
        simp [GameManager.addResponse, hr, hc]
      have hic : ({ r with responses := mapSet r.responses p a } : GameRound).isComplete
          = false := hc
      have hrec := ih (gm.addResponse p a).2 { r with responses := mapSet r.responses p a }
        last step hic hlast2
      have hfold : submitResponses gm p (a :: b :: t2) =
          submitResponses (gm.addResponse p a).2 p (b :: t2) := rfl
      rw [hfold, hrec]
      simp [mapSet_mapSet]

/-- Folding addVote for one voter over an active round collapses to a single
Map.set with the vote built from the last submitted pair. -/
theorem submitVotes_run (w : String) :
    ∀ (vs : List (String × Bool)) (gm : GameManager) (r : GameRound) (last : String × Bool),
      gm.currentRound = some r → vs.getLast? = some last →
      (submitVotes gm w vs).currentRound =
        some { r with votes := mapSet r.votes w (mkVote w last.1 last.2) } := by
  intro vs
  induction vs with
  | nil =>
    intro gm r last _ hlast
    simp at hlast
  | cons a t ih =>
    intro gm r last hr hlast
    cases t with
    | nil =>
      have ha : a = last := by simpa using hlast
      subst ha
      simp [submitVotes, GameManager.addVote, hr]
    | cons b t2 =>
      have hlast2 : (b :: t2).getLast? = some last := by
        simpa [List.getLast?_cons_cons] using hlast
      have step : (gm.addVote w a.1 a.2).2.currentRound =
          some { r with votes := mapSet r.votes w (mkVote w a.1 a.2) } := by
        simp [GameManager.addVote, hr]
      have hrec := ih (gm.addVote w a.1 a.2).2
        { r with votes := mapSet r.votes w (mkVote w a.1 a.2) }
        last step hlast2
      have hfold : submitVotes gm w (a :: b :: t2) =
          submitVotes (gm.addVote w a.1 a.2).2 w (b :: t2) := rfl
      rw [hfold, hrec]
      simp [mapSet_mapSet]

/-- C4: within an active round, responses and votes are keyed by the
submitter. Any nonempty sequence of submitResponse calls from one player
leaves exactly one response entry for that player, holding the last submitted
response, with all other keys untouched; likewise any nonempty sequence of
submitVote calls from one voter leaves exactly one vote entry for that voter,
holding the last submitted vote. -/
theorem C4_resubmission_overwrites (gm : GameManager) (r : GameRound)
    (p w : String) (rs : List PlayerResponse) (vs : List (String × Bool))
    (lastR : PlayerResponse) (lastV : String × Bool)
    (hr : gm.currentRound = some r) (hc : r.isComplete = false)
    (hndR : (r.responses.map Prod.fst).Nodup) (hndV : (r.votes.map Prod.fst).Nodup)
    (hlastR : rs.getLast? = some lastR) (hlastV : vs.getLast? = some lastV) :
    (∃ r1, (submitResponses gm p rs).currentRound = some r1 ∧
      mapGet r1.responses p = some lastR ∧
      (r1.responses.filter (fun e => e.1 == p)).length = 1 ∧
      (∀ q, q ≠ p → mapGet r1.responses q = mapGet r.responses q) ∧
      r1.votes = r.votes) ∧
    (∃ r2, (submitVotes gm w vs).currentRound = some r2 ∧
      mapGet r2.votes w = some (mkVote w lastV.1 lastV.2) ∧
      (r2.votes.filter (fun e => e.1 == w)).length = 1 ∧
      (∀ q, q ≠ w → mapGet r2.votes q = mapGet r.votes q) ∧
      r2.responses = r.responses) := by
  constructor
  · refine ⟨{ r with responses := mapSet r.responses p lastR },
      submitResponses_run p rs gm r lastR hr hc hlastR,
      mapGet_mapSet_self r.responses p lastR,
      mapSet_filter_key_length r.responses p lastR hndR,
      fun q hq => mapGet_mapSet_ne r.responses p q lastR hq, rfl⟩
  · refine ⟨{ r with votes := mapSet r.votes w (mkVote w lastV.1 lastV.2) },
      submitVotes_run w vs gm r lastV hr hlastV,
      mapGet_mapSet_self r.votes w _,
      mapSet_filter_key_length r.votes w _ hndV,
      fun q hq => mapGet_mapSet_ne r.votes w q _ hq, rfl⟩

/-- Witness for C4: two resubmissions of a response by p9 and two votes by w1
against roundC3, retaining only the last of each. -/
theorem C4_witness :
    (∃ r1, (submitResponses gmC3 "p9" [respRec "x", respRec "y"]).currentRound = some r1 ∧
      mapGet r1.responses "p9" = some (respRec "y") ∧
      (r1.responses.filter (fun e => e.1 == "p9")).length = 1 ∧
      (∀ q, q ≠ "p9" → mapGet r1.responses q = mapGet roundC3.responses q) ∧
      r1.votes = roundC3.votes) ∧
    (∃ r2, (submitVotes gmC3 "w1" [("p1", true), ("ai-player", false)]).currentRound
        = some r2 ∧
      mapGet r2.votes "w1" = some (mkVote "w1" "ai-player" false) ∧
      (r2.votes.filter (fun e => e.1 == "w1")).length = 1 ∧
      (∀ q, q ≠ "w1" → mapGet r2.votes q = mapGet roundC3.votes q) ∧
      r2.responses = roundC3.responses) :=
  C4_resubmission_overwrites gmC3 roundC3 "p9" "w1"
    [respRec "x", respRec "y"] [("p1", true), ("ai-player", false)]
    (respRec "y") ("ai-player", false) rfl rfl (by decide) (by decide) rfl rfl

/-- C6: canAddPlayer returns true exactly when the number of registered
players with isAI false is strictly below 16; entries with isAI true (the AI
player) never contribute, the roster size being the human count plus the
count of AI entries. -/
theorem C6_canAddPlayer_iff (pm : PlayerManager) :
    (pm.canAddPlayer = true ↔
      (pm.getAllPlayers.filter (fun p => p.isAI = false)).length < 16) ∧
    pm.getRealPlayerCount =
      (pm.getAllPlayers.filter (fun p => p.isAI = false)).length ∧
    pm.getAllPlayers.length =
      (pm.getAllPlayers.filter (fun p => p.isAI)).length + pm.getRealPlayerCount := by
  have hfil : ∀ l : List Player,
      l.filter (fun p => !p.isAI) = l.filter (fun p => p.isAI = false) := by
    intro l
    apply List.filter_congr
    intro x _
    cases hx : x.isAI <;> simp [hx]
  have hcount : pm.getRealPlayerCount =
      (pm.getAllPlayers.filter (fun p => p.isAI = false)).length := by
    unfold PlayerManager.getRealPlayerCount PlayerManager.getAllPlayers
    rw [hfil]
  have hsum : ∀ l : List Player,
      l.length = (l.filter (fun p => p.isAI)).length +
        (l.filter (fun p => !p.isAI)).length := by
    intro l
    induction l with
    | nil => rfl
    | cons a t ih =>
      cases ha : a.isAI <;> simp [List.filter_cons, ha, ih] <;> omega
  refine ⟨?_, hcount, ?_⟩
  · unfold PlayerManager.canAddPlayer MAX_REAL_PLAYERS
    rw [hcount]
    simp
  · unfold PlayerManager.getRealPlayerCount PlayerManager.getAllPlayers
    exact hsum (mapValues pm.players)

/-- C7 as stated fails: addPlayer called with an id that is already registered
silently replaces the stored record (Alice becomes Bob) instead of being a
no-op or an error. -/
theorem C7_counterexample :
    PlayerManager.getPlayer pmAlice "p1" = some (humanRec "p1" "Alice") ∧
    PlayerManager.getPlayer (pmAlice.addPlayer "p1" "Bob").2 "p1" =
      some (humanRec "p1" "Bob") := by
  decide

/-- C7 amended: the register handler (which guards addPlayer behind a
getPlayer check) is a no-op when the id is already registered; when the id is
free and distinct from the AI id it stores a fresh human player record under
that id. Unguarded addPlayer itself silently replaces. -/
theorem C7_registerPlayer_spec (pm : PlayerManager) (id name : String) :
    (∀ pl, pm.getPlayer id = some pl → registerPlayer pm id name = pm) ∧
    (pm.getPlayer id = none → id ≠ "ai-player" →
      (registerPlayer pm id name).getPlayer id = some (humanRec id name)) := by
  constructor
  · intro pl hpl
    unfold registerPlayer
    rw [hpl]
  · intro hnone hne
    unfold registerPlayer
    rw [hnone]
    by_cases hlen : (((pm.addPlayer id name).2.getAllPlayers.length == 1) = true)
    · simp only [hlen, if_true]
      unfold PlayerManager.getPlayer PlayerManager.initializeAIPlayer PlayerManager.addPlayer
      rw [mapGet_mapSet_ne _ _ _ _ hne]
      exact mapGet_mapSet_self pm.players id (humanRec id name)
    · simp only [hlen, if_false]
      unfold PlayerManager.getPlayer PlayerManager.addPlayer
      exact mapGet_mapSet_self pm.players id (humanRec id name)

/-- Witness for the amended C7: registering p1 again is a no-op, and
registering a fresh id stores the human record. -/
theorem C7_witness :
    registerPlayer pmAlice "p1" "Bob" = pmAlice ∧
    (registerPlayer PlayerManager.empty "p1" "Alice").getPlayer "p1" =
      some (humanRec "p1" "Alice") :=
  ⟨(C7_registerPlayer_spec pmAlice "p1" "Bob").1 (humanRec "p1" "Alice") (by decide),
   (C7_registerPlayer_spec PlayerManager.empty "p1" "Alice").2 (by decide) (by decide)⟩

/-- C8 as stated fails: in a registry state where the AI player exists,
calling initializeAIPlayer again can change the registry's player set (here it
overwrites the record stored under the id ai-player). -/
theorem C8_counterexample :
    PlayerManager.hasAIPlayer pmC8 = true ∧
    (pmC8.initializeAIPlayer).2.players ≠ pmC8.players := by
  decide

/-- C8 amended: initializeAIPlayer always constructs, stores and returns the
canonical AI player record; it is idempotent as a state transformer, so a
second call returns an equal record and leaves the registry unchanged, but it
does not preserve arbitrary pre-existing fields stored under the id
ai-player. -/
theorem C8_initializeAIPlayer_idem (pm : PlayerManager) :
    (pm.initializeAIPlayer).2.initializeAIPlayer =
      ((pm.initializeAIPlayer).1, (pm.initializeAIPlayer).2) ∧
    (pm.initializeAIPlayer).1 = aiRec ∧
    (pm.initializeAIPlayer).2.aiPlayer = some aiRec ∧
    (pm.initializeAIPlayer).2.getPlayer "ai-player" = some aiRec := by
  refine ⟨?_, rfl, rfl, ?_⟩
  · unfold PlayerManager.initializeAIPlayer
    simp [mapSet_mapSet]
  · unfold PlayerManager.getPlayer PlayerManager.initializeAIPlayer
    exact mapGet_mapSet_self pm.players "ai-player" aiRec

/-- Evaluation of getVoteResults when a round and an AI player are present. -/
theorem getVoteResults_eq (gm : GameManager) (pm : PlayerManager) (r : GameRound) (ai : Player)
    (hr : gm.currentRound = some r) (hai : pm.getAIPlayer = some ai) :
    gm.getVoteResults pm = Except.ok
      { correct := ((mapValues r.votes).filter (fun vote =>
          (vote.votedPlayerId == ai.id && vote.isAIGuess) ||
          (vote.votedPlayerId != ai.id && !vote.isAIGuess))).length,
        total := (mapValues r.votes).length,
        aiPlayer := ai.name } := by
  unfold GameManager.getVoteResults
  rw [hr, hai]

/-- Evaluation of completeRound when a round and an AI player are present:
ok summary, and the kept round is marked complete. -/
theorem completeRound_ok (gm : GameManager) (pm : PlayerManager) (r : GameRound) (ai : Player)
    (hr : gm.currentRound = some r) (hai : pm.getAIPlayer = some ai) :
    ∃ res : RoundResult, gm.completeRound pm =
      (Except.ok (some res), { currentRound := some { r with isComplete := true } }) := by
  unfold GameManager.completeRound
  rw [hr, getVoteResults_eq gm pm r ai hr hai]
  exact ⟨_, rfl⟩

/-- C9: after completeRound has marked the round complete (and before any
reset), addVote still succeeds and records or overwrites votes in the
completed round, while addResponse now rejects with its error. -/
theorem C9_addVote_after_complete (gm : GameManager) (pm : PlayerManager)
    (r : GameRound) (ai : Player) (voterId votedPlayerId : String) (g : Bool)
    (hr : gm.currentRound = some r) (hai : pm.getAIPlayer = some ai) :
    (gm.completeRound pm).2.currentRound = some { r with isComplete := true } ∧
    ((gm.completeRound pm).2.addVote voterId votedPlayerId g).1 = Except.ok () ∧
    (∃ r2, ((gm.completeRound pm).2.addVote voterId votedPlayerId g).2.currentRound
        = some r2 ∧
      mapGet r2.votes voterId = some (mkVote voterId votedPlayerId g) ∧
      r2.isComplete = true) ∧
    (∀ p resp, ((gm.completeRound pm).2.addResponse p resp).1 =
      Except.error "No active round or round is complete") := by
  obtain ⟨res, hcr⟩ := completeRound_ok gm pm r ai hr hai
  rw [hcr]
  refine ⟨rfl, rfl, ⟨_, rfl, ?_, rfl⟩, fun p resp => rfl⟩
  exact mapGet_mapSet_self r.votes voterId (mkVote voterId votedPlayerId g)

/-- Witness for C9 on the example round and the AI-only registry. -/
theorem C9_witness :
    (GameManager.completeRound { currentRound := some roundEx } pmAI).2.currentRound
      = some { roundEx with isComplete := true } ∧
    ((GameManager.completeRound { currentRound := some roundEx } pmAI).2.addVote
        "v9" "p2" true).1 = Except.ok () ∧
    (∃ r2, ((GameManager.completeRound { currentRound := some roundEx } pmAI).2.addVote
        "v9" "p2" true).2.currentRound = some r2 ∧
      mapGet r2.votes "v9" = some (mkVote "v9" "p2" true) ∧
      r2.isComplete = true) ∧
    (∀ p resp, ((GameManager.completeRound { currentRound := some roundEx } pmAI).2.addResponse
        p resp).1 = Except.error "No active round or round is complete") :=
  C9_addVote_after_complete { currentRound := some roundEx } pmAI roundEx aiRec
    "v9" "p2" true rfl rfl

/-- C10: completing a round while no AI player exists fails with the error
propagated from getVoteResults, and the state is unchanged: the round is kept
and still not complete, because the vote-results computation happens before
the round is marked complete. -/
theorem C10_completeRound_no_ai (gm : GameManager) (pm : PlayerManager) (r : GameRound)
    (hr : gm.currentRound = some r) (hc : r.isComplete = false)
    (hai : pm.getAIPlayer = none) :
    gm.completeRound pm = (Except.error "No AI player found", gm) ∧
    (gm.completeRound pm).2.currentRound = some r ∧
    r.isComplete = false := by
  have h1 : gm.getVoteResults pm = Except.error "No AI player found" := by
    unfold GameManager.getVoteResults
    rw [hr, hai]
  have h2 : gm.completeRound pm = (Except.error "No AI player found", gm) := by
    unfold GameManager.completeRound
    rw [hr, h1]
  refine ⟨h2, ?_, hc⟩
  rw [h2]
  exact hr

/-- Witness for C10: roundC3 is active and incomplete, pmC3 has no AI player,
and completeRound errors leaving the state untouched. -/
theorem C10_witness :
    GameManager.completeRound gmC3 pmC3 = (Except.error "No AI player found", gmC3) ∧
    (GameManager.completeRound gmC3 pmC3).2.currentRound = some roundC3 ∧
    roundC3.isComplete = false :=
  C10_completeRound_no_ai gmC3 pmC3 roundC3 rfl rfl rfl

